import Mathlib

/-!
Verification of the Local Food Wastage Management System against its
specification.  The development shallowly embeds the data model and the
SQL layer of src/app.py: the four relations are lists of rows, each SQL
query or DML statement becomes an executable Lean function on a Store,
and the SQLite text representation of dates is modelled explicitly,
because the program stores CSV-loaded dates as text of the form
YYYY-MM-DD 00:00:00 (pandas to_sql writes datetime values that way)
while dates written by the add/update forms are stored as bare
YYYY-MM-DD text, and all date filtering in the program is SQLite text
comparison of those strings.
-/

namespace FoodApp

/-- StoredDate models the text stored in the Expiry_Date column.
Within the fixed-width format YYYY-MM-DD (four-digit years),
lexicographic byte comparison of the date part agrees with
chronological order, so the date part is abstracted to a single natural
number: its day index in chronological order.  A value loaded from CSV
by pandas carries the suffix [space]00:00:00 (constructor stamped); a
value written by the add-listing or update-listing form is the bare
date (constructor plain). -/
inductive StoredDate where
  | plain (day : Nat)
  | stamped (day : Nat)
deriving DecidableEq

/-- The calendar day denoted by a stored date text, independent of the
storage format. -/
def StoredDate.dateDay : StoredDate → Nat
  | .plain d => d
  | .stamped d => d

/-- SQLite text comparison (strict less-than) of two stored date texts.
Two texts with the same format compare by their date part.  A bare date
is a strict prefix of the same date with the 00:00:00 suffix, hence
strictly smaller; so plain a is below stamped b iff a is at most b, and
stamped a is below plain b iff a is strictly below b. -/
def StoredDate.textLt : StoredDate → StoredDate → Bool
  | .plain a, .plain b => decide (a < b)
  | .stamped a, .stamped b => decide (a < b)
  | .plain a, .stamped b => decide (a ≤ b)
  | .stamped a, .plain b => decide (a < b)

/-- SQLite text comparison (less-than-or-equal) of stored date texts,
defined as the negation of the reversed strict comparison, as for any
total order on texts. -/
def StoredDate.textLe (x y : StoredDate) : Bool :=
  !(StoredDate.textLt y x)

theorem StoredDate.textLt_trichotomy (x y : StoredDate) :
    StoredDate.textLt x y = true ∨ x = y ∨ StoredDate.textLt y x = true := by
  cases x <;> cases y <;> simp [StoredDate.textLt] <;> omega

theorem StoredDate.textLe_total (x y : StoredDate) :
    StoredDate.textLe x y = true ∨ StoredDate.textLe y x = true := by
  cases x <;> cases y <;> simp [StoredDate.textLe, StoredDate.textLt] <;> omega

theorem StoredDate.textLe_trans {x y z : StoredDate}
    (hxy : StoredDate.textLe x y = true) (hyz : StoredDate.textLe y z = true) :
    StoredDate.textLe x z = true := by
  cases x <;> cases y <;> cases z <;>
    simp [StoredDate.textLe, StoredDate.textLt] at * <;> omega

theorem StoredDate.textLt_trans {x y z : StoredDate}
    (hxy : StoredDate.textLt x y = true) (hyz : StoredDate.textLt y z = true) :
    StoredDate.textLt x z = true := by
  cases x <;> cases y <;> cases z <;>
    simp [StoredDate.textLt] at * <;> omega

theorem StoredDate.textLt_irrefl (x : StoredDate) :
    StoredDate.textLt x x = false := by
  cases x <;> simp [StoredDate.textLt]

/-- A row of the providers relation (providers_data.csv).  The column
named Type in the source is rendered Type_ here because Type is a
reserved word in Lean. -/
structure Provider where
  Provider_ID : Nat
  Name : String
  Type_ : String
  City : String
  Contact : String
deriving DecidableEq

/-- A row of the receivers relation (receivers_data.csv). -/
structure Receiver where
  Receiver_ID : Nat
  Name : String
  Type_ : String
  City : String
deriving DecidableEq

/-- A row of the food_listings relation. -/
structure FoodListing where
  Food_ID : Nat
  Food_Name : String
  Quantity : Nat
  Expiry_Date : StoredDate
  Provider_ID : Nat
  Provider_Type : String
  Location : String
  Food_Type : String
  Meal_Type : String
deriving DecidableEq

/-- A row of the claims relation. -/
structure Claim where
  Claim_ID : Nat
  Food_ID : Nat
  Receiver_ID : Nat
  Status : String
  Timestamp : String
deriving DecidableEq

/-- The in-memory SQLite database: the four relations loaded by
init_db.  Note that pandas to_sql creates the tables without any
primary-key or uniqueness constraint, so the relations are plain lists
of rows. -/
structure Store where
  providers : List Provider
  receivers : List Receiver
  food_listings : List FoodListing
  claims : List Claim
deriving DecidableEq

/-- Error kinds named by the specification for the mutation and
claim-submission layer. -/
inductive DBError where
  | NotFound
  | IntegrityError
  | InvalidReference
deriving DecidableEq

/-- COUNT(DISTINCT p.Provider_ID) restricted to the join rows of one
city group of the per-city query. -/
def distinctProviderCount (s : Store) (city : String) : Nat :=
  (((s.providers.filter (fun p => p.City == city)).map Provider.Provider_ID).dedup).length

/-- COUNT(DISTINCT r.Receiver_ID) restricted to the join rows of one
city group of the per-city query; a city group whose provider rows meet
no receiver row contributes a single NULL receiver, which COUNT
DISTINCT ignores, giving 0, exactly as the empty filter does here. -/
def distinctReceiverCount (s : Store) (city : String) : Nat :=
  (((s.receivers.filter (fun r => r.City == city)).map Receiver.Receiver_ID).dedup).length

/-- Boolean form of the ORDER BY of the per-city query: NumProviders
descending, then NumReceivers descending. -/
def cityRowLeB (a b : String × Nat × Nat) : Bool :=
  decide (b.2.1 < a.2.1) || (a.2.1 == b.2.1 && decide (b.2.2 ≤ a.2.2))

/-- Sort relation of the per-city query. -/
def cityRowLe (a b : String × Nat × Nat) : Prop :=
  cityRowLeB a b = true

instance : DecidableRel cityRowLe :=
  fun a b => inferInstanceAs (Decidable (cityRowLeB a b = true))

instance : IsTotal (String × Nat × Nat) cityRowLe where
  total a b := by
    simp only [cityRowLe, cityRowLeB, Bool.or_eq_true, Bool.and_eq_true,
      decide_eq_true_eq, beq_iff_eq]
    omega

instance : IsTrans (String × Nat × Nat) cityRowLe where
  trans a b c := by
    simp only [cityRowLe, cityRowLeB, Bool.or_eq_true, Bool.and_eq_true,
      decide_eq_true_eq, beq_iff_eq]
    omega

/-- The providers-and-receivers-per-city query
(get_providers_receivers_per_city_sql).  The SQL is a LEFT JOIN from
providers to receivers on equal City, grouped by
COALESCE(p.City, r.City); since the left side of a LEFT JOIN is never
NULL, the grouping key is p.City and there is exactly one group per
distinct provider city.  Each group reports the distinct provider and
receiver counts of that city, and the rows are ordered by NumProviders
descending then NumReceivers descending. -/
def get_providers_receivers_per_city_sql (s : Store) : List (String × Nat × Nat) :=
  List.insertionSort cityRowLe
    (((s.providers.map Provider.City).dedup).map
      (fun c => (c, distinctProviderCount s c, distinctReceiverCount s c)))

/-- The projection returned by get_food_nearing_expiry_sql:
Food_Name, Quantity, Expiry_Date, Location, Provider_ID. -/
structure ExpiryRow where
  Food_Name : String
  Quantity : Nat
  Expiry_Date : StoredDate
  Location : String
  Provider_ID : Nat
deriving DecidableEq

/-- Sort relation of the nearing-expiry query: Expiry_Date ascending in
SQLite text order. -/
def expiryRowLe (a b : ExpiryRow) : Prop :=
  StoredDate.textLe a.Expiry_Date b.Expiry_Date = true

instance : DecidableRel expiryRowLe :=
  fun a b => inferInstanceAs (Decidable (_ = true))

instance : IsTotal ExpiryRow expiryRowLe where
  total a b := StoredDate.textLe_total a.Expiry_Date b.Expiry_Date

instance : IsTrans ExpiryRow expiryRowLe where
  trans _ _ _ := StoredDate.textLe_trans

/-- The food-nearing-expiry query (get_food_nearing_expiry_sql).  The
SQL interpolates todays date as bare YYYY-MM-DD text and compares the
Expiry_Date column text against it with text greater-than, and against
DATE(today, plus the given number of days) with text
less-than-or-equal; the DATE function returns bare YYYY-MM-DD text for
the day numbered today + days.  Rows are ordered by Expiry_Date
ascending in text order. -/
def get_food_nearing_expiry_sql (today days : Nat) (s : Store) : List ExpiryRow :=
  List.insertionSort expiryRowLe
    ((s.food_listings.filter (fun fl =>
        StoredDate.textLt (StoredDate.plain today) fl.Expiry_Date &&
        StoredDate.textLe fl.Expiry_Date (StoredDate.plain (today + days)))).map
      (fun fl => ⟨fl.Food_Name, fl.Quantity, fl.Expiry_Date, fl.Location, fl.Provider_ID⟩))

/-- Sort relation of the claim-status-percentage query: Percentage
descending. -/
def pctRowLe (a b : String × ℚ) : Prop :=
  decide (b.2 ≤ a.2) = true

instance : DecidableRel pctRowLe :=
  fun a b => inferInstanceAs (Decidable (_ = true))

instance : IsTotal (String × ℚ) pctRowLe where
  total a b := by
    simp only [pctRowLe, decide_eq_true_eq]
    exact le_total b.2 a.2

instance : IsTrans (String × ℚ) pctRowLe where
  trans a b c := by
    simp only [pctRowLe, decide_eq_true_eq]
    exact fun h1 h2 => le_trans h2 h1

/-- The claim-status-percentage query (get_claim_status_percentage_sql):
one row per distinct Status with CAST(COUNT(Claim_ID) AS REAL) * 100
divided by the total row count of claims, ordered by Percentage
descending.  SQLite REAL division is modelled by exact division in ℚ. -/
def get_claim_status_percentage_sql (s : Store) : List (String × ℚ) :=
  List.insertionSort pctRowLe
    (((s.claims.map Claim.Status).dedup).map (fun st =>
      (st, ((s.claims.filter (fun c => c.Status == st)).length : ℚ) * 100
        / ((s.claims.length : ℚ)))))

/-- The total-food-available query (get_total_food_available_sql):
SELECT SUM(Quantity) FROM food_listings.  SQL SUM over zero rows is
NULL, modelled as none; over at least one row it is the numeric sum. -/
def get_total_food_available_sql (s : Store) : Option Nat :=
  match s.food_listings with
  | [] => none
  | _ :: _ => some ((s.food_listings.map FoodListing.Quantity).sum)

/-- INSERT INTO food_listings (add_food_listing_sql).  The table was
created by pandas to_sql without any primary-key or uniqueness
constraint, so the INSERT appends the row unconditionally and cannot
fail; the expiry date is formatted as bare YYYY-MM-DD text. -/
def add_food_listing_sql (food_id : Nat) (food_name : String) (quantity : Nat)
    (expiry_day : Nat) (provider_id : Nat)
    (provider_type location food_type meal_type : String)
    (s : Store) : Except DBError Store :=
  Except.ok { s with food_listings := s.food_listings ++
    [⟨food_id, food_name, quantity, StoredDate.plain expiry_day, provider_id,
      provider_type, location, food_type, meal_type⟩] }

/-- UPDATE food_listings SET ... WHERE Food_ID = ?
(update_food_listing_sql).  The UPDATE rewrites every row whose Food_ID
matches and leaves the others; when no row matches it affects zero rows
and reports no error. -/
def update_food_listing_sql (food_id : Nat) (food_name : String) (quantity : Nat)
    (expiry_day : Nat) (food_type meal_type : String)
    (s : Store) : Except DBError Store :=
  Except.ok { s with food_listings := s.food_listings.map (fun fl =>
    if fl.Food_ID == food_id then
      { fl with
        Food_Name := food_name
        Quantity := quantity
        Expiry_Date := StoredDate.plain expiry_day
        Food_Type := food_type
        Meal_Type := meal_type }
    else fl) }

/-- delete_food_listing_sql: DELETE FROM claims WHERE Food_ID = ?,
then DELETE FROM food_listings WHERE Food_ID = ?.  Neither DELETE can
fail; deleting a missing id affects zero rows. -/
def delete_food_listing_sql (food_id : Nat) (s : Store) : Except DBError Store :=
  Except.ok { s with
    claims := s.claims.filter (fun c => !(c.Food_ID == food_id))
    food_listings := s.food_listings.filter (fun fl => !(fl.Food_ID == food_id)) }

/-- INSERT INTO claims (add_claim_sql).  As for food_listings, the
claims table carries no uniqueness constraint, so the INSERT appends
unconditionally. -/
def add_claim_sql (claim_id food_id receiver_id : Nat) (status timestamp : String)
    (s : Store) : Except DBError Store :=
  Except.ok { s with claims := s.claims ++
    [⟨claim_id, food_id, receiver_id, status, timestamp⟩] }

/-- The fresh claim id computed on the Claim Food page:
SELECT MAX(Claim_ID) FROM claims, then max plus one if the result is
non-NULL and 1 otherwise. -/
def new_claim_id (s : Store) : Nat :=
  match (s.claims.map Claim.Claim_ID).max? with
  | none => 1
  | some m => m + 1

/-- The claim-form submit handler: it counts the food_listings rows
with the requested Food_ID; if the count is zero it reports an error to
the submitter and performs no mutation (modelled as Except.error, the
store unchanged), otherwise it calls add_claim_sql with the freshly
computed claim id and the current timestamp. -/
def submit_claim (food_id receiver_id : Nat) (status timestamp : String)
    (s : Store) : Except DBError Store :=
  let food_exists := (s.food_listings.filter (fun fl => fl.Food_ID == food_id)).length
  if food_exists == 0 then
    Except.error DBError.InvalidReference
  else
    add_claim_sql (new_claim_id s) food_id receiver_id status timestamp s

/-- Lexicographic strict comparison of two character lists by code
point, the order SQLite uses to compare the text of the Food_Name
column (memcmp on bytes, which agrees with code-point order on the
ASCII data of this application). -/
def charsLtB : List Char → List Char → Bool
  | [], [] => false
  | [], _ :: _ => true
  | _ :: _, [] => false
  | a :: as, b :: bs =>
    if a.toNat < b.toNat then true
    else if b.toNat < a.toNat then false
    else charsLtB as bs

theorem charsLtB_total (x y : List Char) :
    charsLtB y x = false ∨ charsLtB x y = false := by
  induction x generalizing y with
  | nil =>
    cases y with
    | nil => exact Or.inl rfl
    | cons b bs => exact Or.inl rfl
  | cons a as ih =>
    cases y with
    | nil => exact Or.inr rfl
    | cons b bs =>
      simp only [charsLtB]
      rcases Nat.lt_trichotomy a.toNat b.toNat with h | h | h
      · left
        rw [if_neg (by omega), if_pos h]
      · rcases ih bs with hh | hh
        · left
          rw [if_neg (by omega), if_neg (by omega)]
          exact hh
        · right
          rw [if_neg (by omega), if_neg (by omega)]
          exact hh
      · right
        rw [if_neg (by omega), if_pos h]

theorem charsLtB_le_trans :
    ∀ (x y z : List Char), charsLtB y x = false → charsLtB z y = false →
      charsLtB z x = false := by
  intro x
  induction x with
  | nil =>
    intro y z _ _
    cases z with
    | nil => rfl
    | cons c cs => rfl
  | cons a as ih =>
    intro y z h1 h2
    cases y with
    | nil => simp [charsLtB] at h1
    | cons b bs =>
      cases z with
      | nil => simp [charsLtB] at h2
      | cons c cs =>
        simp only [charsLtB] at h1 h2 ⊢
        split_ifs at h1 h2 ⊢ <;>
          first
            | rfl
            | exact ih bs cs h1 h2
            | omega

/-- SQLite text less-than-or-equal on strings, as the negation of the
reversed strict comparison of their character data. -/
def strLeB (s t : String) : Bool :=
  !(charsLtB t.data s.data)

theorem strLeB_total (s t : String) : strLeB s t = true ∨ strLeB t s = true := by
  simp only [strLeB, Bool.not_eq_true']
  exact charsLtB_total s.data t.data

theorem strLeB_trans {s t u : String} (h1 : strLeB s t = true)
    (h2 : strLeB t u = true) : strLeB s u = true := by
  simp only [strLeB, Bool.not_eq_true'] at *
  exact charsLtB_le_trans s.data t.data u.data h1 h2

/-- A row of the filtered-listings view on the Claim Food page:
the listing columns joined with the provider Name and Contact. -/
structure FilteredRow where
  Food_ID : Nat
  Food_Name : String
  Quantity : Nat
  Expiry_Date : StoredDate
  Provider_Type : String
  Location : String
  Food_Type : String
  Meal_Type : String
  Provider_Name : String
  Provider_Contact : String
deriving DecidableEq

/-- Row construction of the JOIN between food_listings and providers on
equal Provider_ID. -/
def mkFilteredRow (fl : FoodListing) (p : Provider) : FilteredRow :=
  ⟨fl.Food_ID, fl.Food_Name, fl.Quantity, fl.Expiry_Date, fl.Provider_Type,
    fl.Location, fl.Food_Type, fl.Meal_Type, p.Name, p.Contact⟩

/-- The WHERE clause assembled by the Claim Food page: the fixed 1=1
plus one AND equality per filter whose selectbox is not on All
(an absent filter is modelled as none). -/
def matchesFilters (city provider_type food_type meal_type : Option String)
    (row : FilteredRow) : Bool :=
  (match city with | none => true | some c => row.Location == c) &&
  (match provider_type with | none => true | some t => row.Provider_Type == t) &&
  (match food_type with | none => true | some t => row.Food_Type == t) &&
  (match meal_type with | none => true | some t => row.Meal_Type == t)

/-- Boolean form of ORDER BY fl.Expiry_Date ASC, fl.Food_Name ASC:
Expiry_Date text ascending, ties in the text broken by Food_Name
ascending. -/
def filteredRowLeB (a b : FilteredRow) : Bool :=
  StoredDate.textLt a.Expiry_Date b.Expiry_Date ||
  (a.Expiry_Date == b.Expiry_Date && strLeB a.Food_Name b.Food_Name)

/-- Sort relation of the filtered-listings query. -/
def filteredRowLe (a b : FilteredRow) : Prop :=
  filteredRowLeB a b = true

instance : DecidableRel filteredRowLe :=
  fun a b => inferInstanceAs (Decidable (filteredRowLeB a b = true))

instance : IsTotal FilteredRow filteredRowLe where
  total a b := by
    simp only [filteredRowLe, filteredRowLeB, Bool.or_eq_true, Bool.and_eq_true,
      beq_iff_eq]
    rcases StoredDate.textLt_trichotomy a.Expiry_Date b.Expiry_Date with h | h | h
    · exact Or.inl (Or.inl h)
    · rcases strLeB_total a.Food_Name b.Food_Name with hn | hn
      · exact Or.inl (Or.inr ⟨h, hn⟩)
      · exact Or.inr (Or.inr ⟨h.symm, hn⟩)
    · exact Or.inr (Or.inl h)

instance : IsTrans FilteredRow filteredRowLe where
  trans a b c := by
    simp only [filteredRowLe, filteredRowLeB, Bool.or_eq_true, Bool.and_eq_true,
      beq_iff_eq]
    rintro (h1 | ⟨h1, h1n⟩) (h2 | ⟨h2, h2n⟩)
    · exact Or.inl (StoredDate.textLt_trans h1 h2)
    · exact Or.inl (h2 ▸ h1)
    · exact Or.inl (h1 ▸ h2)
    · exact Or.inr ⟨h1.trans h2, strLeB_trans h1n h2n⟩

/-- The filtered-listings query of the Claim Food page (filter_query):
food_listings JOIN providers ON equal Provider_ID, filtered by the
optional city, provider-type, food-type and meal-type equalities
combined with AND, ordered by Expiry_Date ascending (text order) then
Food_Name ascending. -/
def filter_query (city provider_type food_type meal_type : Option String)
    (s : Store) : List FilteredRow :=
  List.insertionSort filteredRowLe
    ((s.food_listings.flatMap (fun fl =>
        (s.providers.filter (fun p => p.Provider_ID == fl.Provider_ID)).map
          (mkFilteredRow fl))).filter
      (matchesFilters city provider_type food_type meal_type))

/-! Helper lemmas shared by the claim theorems. -/

/-- Mapping a conditional rewrite over a list whose elements all fail
the condition leaves the list unchanged.  This is the zero-rows-affected
behaviour of an UPDATE whose WHERE clause matches nothing. -/
theorem map_ite_id {α : Type} (p : α → Bool) (g : α → α) (l : List α)
    (h : ∀ a ∈ l, p a = false) :
    (l.map fun a => if p a then g a else a) = l := by
  induction l with
  | nil => rfl
  | cons a t ih =>
    rw [List.map_cons, if_neg (by simp [h a (List.mem_cons_self a t)]),
      ih (fun x hx => h x (List.mem_cons_of_mem a hx))]

/-- Summing, over the distinct elements of a list, the number of
occurrences of each, recovers the length of the list. -/
theorem sum_dedup_count {α : Type} [DecidableEq α] (l : List α) :
    (l.dedup.map (fun a => l.count a)).sum = l.length := by
  have h := Multiset.toFinset_sum_count_eq (l : Multiset α)
  simpa [Finset.sum, Multiset.toFinset] using h

/-- The length of the claims rows with a given status equals the count
of that status in the status column. -/
theorem status_filter_length (s : Store) (st : String) :
    (s.claims.filter (fun c => c.Status == st)).length =
      (s.claims.map Claim.Status).count st := by
  rw [List.count, List.countP_map, ← List.countP_eq_length_filter]
  rfl

/-! Concrete stores used as inputs of counterexamples and witnesses. -/

/-- The store with no rows in any relation. -/
def emptyStore : Store := ⟨[], [], [], []⟩

/-- The example of the specification for the per-city query: providers
P1 in CityA and P2 in CityB, one receiver R1 in CityA, no listings, no
claims. -/
def exampleStoreC1 : Store :=
  ⟨[⟨1, "P1", "Restaurant", "CityA", "c1"⟩, ⟨2, "P2", "Grocery", "CityB", "c2"⟩],
   [⟨1, "R1", "NGO", "CityA"⟩], [], []⟩

/-- A store whose only receiver lives in a city (CityB) that has no
provider. -/
def storeC1cx : Store :=
  ⟨[⟨1, "P1", "Restaurant", "CityA", "c1"⟩], [⟨1, "R1", "NGO", "CityB"⟩], [], []⟩

/-- A listing whose Expiry_Date was loaded from CSV by pandas and is
stored as text with the 00:00:00 suffix. -/
def flStamped (d : Nat) (name : String) (fid : Nat) : FoodListing :=
  ⟨fid, name, 1, StoredDate.stamped d, 1, "Restaurant", "CityA", "Vegan", "Lunch"⟩

/-- A listing whose Expiry_Date was written by the add-listing form and
is stored as bare YYYY-MM-DD text. -/
def flPlain (d : Nat) (name : String) (fid : Nat) : FoodListing :=
  ⟨fid, name, 1, StoredDate.plain d, 1, "Restaurant", "CityA", "Vegan", "Lunch"⟩

/-- Six listings around a run where today is day 100: CSV-loaded
(stamped) and form-added (plain) listings expiring today, today+7 and
today+8. -/
def storeC2 : Store :=
  ⟨[], [], [flStamped 100 "StampedToday" 1, flStamped 107 "StampedPlus7" 2,
            flStamped 108 "StampedPlus8" 3, flPlain 100 "PlainToday" 4,
            flPlain 107 "PlainPlus7" 5, flPlain 108 "PlainPlus8" 6], []⟩

/-- A store with one listing whose Food_ID is 2 and no listing with
Food_ID 1. -/
def storeC3 : Store := ⟨[], [], [flPlain 200 "Bread" 2], []⟩

/-! Claim C1. -/

/-- Claim C1 is refuted at this store: CityB appears among the receiver
cities and has no provider, yet the per-city query yields no row for
CityB at all, because the SQL is a LEFT JOIN from providers, not an
outer join over the union of cities. -/
theorem C1_counterexample :
    ("CityB" ∈ storeC1cx.receivers.map Receiver.City) ∧
    (∀ p ∈ storeC1cx.providers, p.City ≠ "CityB") ∧
    (∀ row ∈ get_providers_receivers_per_city_sql storeC1cx, row.1 ≠ "CityB") := by
  decide

/-- Claim C1 (amended): the per-city query has LEFT-join semantics: a
city yields a row exactly when some provider is in it (a city that
appears only among receivers yields no row); each row carries the
distinct provider count and distinct receiver count of its city; rows
are ordered by provider count descending then receiver count
descending; and on the example store of the specification the result is
(CityA, 1, 1) then (CityB, 1, 0) as the example states, since both of
its cities have a provider. -/
theorem C1_per_city_query_left_join_semantics :
    (∀ (s : Store) (c : String),
      ((∃ np nr, (c, np, nr) ∈ get_providers_receivers_per_city_sql s) ↔
        c ∈ s.providers.map Provider.City)) ∧
    (∀ (s : Store) (c : String) (np nr : Nat),
      (c, np, nr) ∈ get_providers_receivers_per_city_sql s →
        np = distinctProviderCount s c ∧ nr = distinctReceiverCount s c) ∧
    (∀ s : Store, List.Sorted cityRowLe (get_providers_receivers_per_city_sql s)) ∧
    get_providers_receivers_per_city_sql exampleStoreC1 =
      [("CityA", 1, 1), ("CityB", 1, 0)] := by
  refine ⟨?_, ?_, fun s => List.sorted_insertionSort cityRowLe _, by decide⟩
  · intro s c
    constructor
    · rintro ⟨np, nr, h⟩
      have h2 := ((List.perm_insertionSort cityRowLe _).mem_iff).mp h
      simp only [List.mem_map, List.mem_dedup, Prod.mk.injEq] at h2
      obtain ⟨c2, hc2, rfl, _, _⟩ := h2
      exact List.mem_map.mpr hc2
    · intro hc
      exact ⟨distinctProviderCount s c, distinctReceiverCount s c,
        ((List.perm_insertionSort cityRowLe _).mem_iff).mpr
          (List.mem_map.mpr ⟨c, List.mem_dedup.mpr hc, rfl⟩)⟩
  · intro s c np nr h
    have h2 := ((List.perm_insertionSort cityRowLe _).mem_iff).mp h
    simp only [List.mem_map, List.mem_dedup, Prod.mk.injEq] at h2
    obtain ⟨c2, _, rfl, hnp, hnr⟩ := h2
    exact ⟨hnp.symm, hnr.symm⟩

/-- Witness for the amended claim C1: instantiating the row
characterization at the row (CityA, 1, 1) of the example store. -/
theorem C1_witness :
    1 = distinctProviderCount exampleStoreC1 "CityA" ∧
    1 = distinctReceiverCount exampleStoreC1 "CityA" :=
  C1_per_city_query_left_join_semantics.2.1 exampleStoreC1 "CityA" 1 1 (by decide)

/-! Claim C2. -/

/-- Claim C2 evaluated at the failing input, today being day 100 and
the window 7 days.  The claim (and the SQL text, which compares with
strict greater-than against today and with less-than-or-equal against
today plus 7 days) requires a listing expiring today to be excluded and
a listing expiring today+7 to be included.  Form-added listings, whose
expiry is stored as bare YYYY-MM-DD text, behave exactly that way
(PlainToday is out, PlainPlus7 is in, PlainPlus8 is out).  But the
CSV-loaded listings are stored with a 00:00:00 suffix, and SQLite text
comparison of the suffixed text against the bare date bounds flips both
boundaries: StampedToday, which expires today, is returned, and
StampedPlus7, which expires today+7, is dropped. -/
theorem C2_expiry_window_boundary_bug :
    (get_food_nearing_expiry_sql 100 7 storeC2).map ExpiryRow.Food_Name =
      ["StampedToday", "PlainPlus7"] ∧
    storeC2.food_listings.map (fun fl => (fl.Food_Name, fl.Expiry_Date.dateDay)) =
      [("StampedToday", 100), ("StampedPlus7", 107), ("StampedPlus8", 108),
       ("PlainToday", 100), ("PlainPlus7", 107), ("PlainPlus8", 108)] := by
  decide

/-! Claim C3. -/

/-- Claim C3 is refuted at this store: Food_ID 1 does not exist in
food_listings, yet update_food_listing_sql succeeds (Except.ok, zero
rows affected, the store unchanged) instead of reporting NotFound. -/
theorem C3_counterexample :
    (1 ∉ storeC3.food_listings.map FoodListing.Food_ID) ∧
    update_food_listing_sql 1 "Toast" 5 300 "Vegan" "Dinner" storeC3 =
      Except.ok storeC3 := by
  exact ⟨by decide, rfl⟩

/-- Claim C3 (amended): whenever the given Food_ID does not exist in
food_listings, the update succeeds silently as a no-op: the UPDATE
affects zero rows, no error of any kind is reported, and the store is
unchanged. -/
theorem C3_update_missing_id_silent_noop (s : Store) (food_id : Nat)
    (food_name : String) (quantity expiry_day : Nat) (food_type meal_type : String)
    (h : food_id ∉ s.food_listings.map FoodListing.Food_ID) :
    update_food_listing_sql food_id food_name quantity expiry_day food_type meal_type s =
      Except.ok s := by
  have hfalse : ∀ fl ∈ s.food_listings, (fl.Food_ID == food_id) = false := by
    intro fl hfl
    simp only [beq_eq_false_iff_ne, ne_eq]
    exact fun hc => h (List.mem_map.mpr ⟨fl, hfl, hc⟩)
  unfold update_food_listing_sql
  rw [map_ite_id _ _ _ hfalse]

/-- Witness for the amended claim C3: updating the missing Food_ID 1 in
a store that only holds Food_ID 2 returns the store unchanged. -/
theorem C3_witness :
    update_food_listing_sql 1 "Toast" 5 300 "Vegan" "Dinner" storeC3 =
      Except.ok storeC3 :=
  C3_update_missing_id_silent_noop storeC3 1 "Toast" 5 300 "Vegan" "Dinner" (by decide)

/-! Claim C4. -/

/-- A store that already holds a listing with Food_ID 1 and a claim
with Claim_ID 1. -/
def storeC4 : Store :=
  ⟨[⟨1, "P1", "Restaurant", "CityA", "c1"⟩], [⟨1, "R1", "NGO", "CityA"⟩],
   [flPlain 200 "Rice" 1], [⟨1, 1, 1, "Pending", "t"⟩]⟩

/-- Claim C4 is refuted at this store: Food_ID 1 already exists in
food_listings and Claim_ID 1 already exists in claims, yet both inserts
succeed (Except.ok, no IntegrityError) and afterwards each relation
holds two rows with the duplicated key, because pandas to_sql created
the tables without any primary-key or uniqueness constraint. -/
theorem C4_counterexample :
    (1 ∈ storeC4.food_listings.map FoodListing.Food_ID) ∧
    ((add_food_listing_sql 1 "Beans" 2 300 1 "Restaurant" "CityA" "Vegan" "Lunch" storeC4).map
      (fun t => (t.food_listings.filter (fun fl => fl.Food_ID == 1)).length) =
        Except.ok 2) ∧
    (1 ∈ storeC4.claims.map Claim.Claim_ID) ∧
    ((add_claim_sql 1 1 1 "Pending" "ts" storeC4).map
      (fun t => (t.claims.filter (fun c => c.Claim_ID == 1)).length) = Except.ok 2) := by
  exact ⟨by decide, rfl, by decide, rfl⟩

/-- Claim C4 (amended): inserting a listing or a claim always succeeds,
appending the new row, even when the caller-supplied primary key already
exists in the relation: no IntegrityError is raised and the number of
rows carrying that key grows by one, so the store layer does not enforce
uniqueness of Food_ID or Claim_ID; uniqueness holds only insofar as the
UI forms supply fresh ids computed as max existing id plus one. -/
theorem C4_duplicate_key_insert_accepted (s : Store) (fid cid rid : Nat)
    (food_name : String) (quantity expiry_day pid : Nat)
    (ptype loc ftype mtype status ts : String) :
    (∃ t, add_food_listing_sql fid food_name quantity expiry_day pid ptype loc ftype mtype s =
        Except.ok t ∧
      (t.food_listings.filter (fun fl => fl.Food_ID == fid)).length =
        (s.food_listings.filter (fun fl => fl.Food_ID == fid)).length + 1) ∧
    (∃ t, add_claim_sql cid fid rid status ts s = Except.ok t ∧
      (t.claims.filter (fun c => c.Claim_ID == cid)).length =
        (s.claims.filter (fun c => c.Claim_ID == cid)).length + 1) := by
  refine ⟨⟨_, rfl, ?_⟩, ⟨_, rfl, ?_⟩⟩ <;> simp [List.filter_append]

/-- Witness for the amended claim C4: inserting the duplicate Food_ID 1
into the store that already lists it yields two rows with that id. -/
theorem C4_witness :
    (add_food_listing_sql 1 "Beans" 2 300 1 "Restaurant" "CityA" "Vegan" "Lunch" storeC4).map
      (fun t => (t.food_listings.filter (fun fl => fl.Food_ID == 1)).length) =
        Except.ok 2 := by
  obtain ⟨⟨t, h1, h2⟩, _⟩ := C4_duplicate_key_insert_accepted storeC4 1 1 1 "Beans" 2 300 1
    "Restaurant" "CityA" "Vegan" "Lunch" "Pending" "ts"
  rw [h1, Except.map, h2]
  rfl

/-! Claim C5. -/

/-- A store with one listing (Food_ID 2) and one claim referencing it,
and nothing with Food_ID 7. -/
def storeC5w : Store := ⟨[], [], [flPlain 200 "Bread" 2], [⟨1, 2, 1, "Pending", "t"⟩]⟩

/-- Claim C5: delete_food_listing_sql deletes every claim with the
given Food_ID and then the listing itself, so afterwards no claim and
no listing carries that id; it never errors; it is idempotent (running
it again returns the same store); and on an id that has no listing and
no claims it affects zero rows and returns the store unchanged. -/
theorem C5_delete_cascades_and_idempotent (s : Store) (fid : Nat) :
    ∃ t, delete_food_listing_sql fid s = Except.ok t ∧
      (∀ c ∈ t.claims, c.Food_ID ≠ fid) ∧
      (∀ fl ∈ t.food_listings, fl.Food_ID ≠ fid) ∧
      delete_food_listing_sql fid t = Except.ok t ∧
      ((fid ∉ s.claims.map Claim.Food_ID ∧
        fid ∉ s.food_listings.map FoodListing.Food_ID) → t = s) := by
  refine ⟨_, rfl, ?_, ?_, ?_, ?_⟩
  · intro c hc
    have := (List.mem_filter.mp hc).2
    simpa using this
  · intro fl hfl
    have := (List.mem_filter.mp hfl).2
    simpa using this
  · unfold delete_food_listing_sql
    rw [List.filter_eq_self.mpr (fun c hc => (List.mem_filter.mp hc).2),
      List.filter_eq_self.mpr (fun fl hfl => (List.mem_filter.mp hfl).2)]
  · rintro ⟨hc, hf⟩
    have h1 : s.claims.filter (fun c => !(c.Food_ID == fid)) = s.claims :=
      List.filter_eq_self.mpr (fun c hcm => by
        simp only [Bool.not_eq_true', beq_eq_false_iff_ne, ne_eq]
        exact fun he => hc (List.mem_map.mpr ⟨c, hcm, he⟩))
    have h2 : s.food_listings.filter (fun fl => !(fl.Food_ID == fid)) = s.food_listings :=
      List.filter_eq_self.mpr (fun fl hfm => by
        simp only [Bool.not_eq_true', beq_eq_false_iff_ne, ne_eq]
        exact fun he => hf (List.mem_map.mpr ⟨fl, hfm, he⟩))
    simp only [h1, h2]

/-- Witness for claim C5: deleting the absent Food_ID 7 from a store
holding only Food_ID 2 rows succeeds and returns the store unchanged. -/
theorem C5_witness : delete_food_listing_sql 7 storeC5w = Except.ok storeC5w := by
  obtain ⟨t, h1, _, _, _, h5⟩ := C5_delete_cascades_and_idempotent storeC5w 7
  rwa [h5 ⟨by decide, by decide⟩] at h1

/-! Claim C6. -/

/-- A store holding a listing with Food_ID 1 (and nothing else). -/
def storeC6b : Store := ⟨[], [], [flPlain 200 "Bread" 1], []⟩

/-- Claim C6: the claim-form submit handler checks whether the
requested food_id has a row in food_listings; if not, it fails with the
invalid-reference error and performs no mutation (the error branch
never touches the claims relation); if the food exists, it appends
exactly one claim row carrying the freshly computed claim id and the
given current timestamp. -/
theorem C6_submit_claim_validates_food_id (s : Store) (fid rid : Nat)
    (status ts : String) :
    (fid ∉ s.food_listings.map FoodListing.Food_ID →
      submit_claim fid rid status ts s = Except.error DBError.InvalidReference) ∧
    (fid ∈ s.food_listings.map FoodListing.Food_ID →
      submit_claim fid rid status ts s = Except.ok { s with
        claims := s.claims ++ [⟨new_claim_id s, fid, rid, status, ts⟩] }) := by
  constructor
  · intro h
    have hnil : s.food_listings.filter (fun fl => fl.Food_ID == fid) = [] := by
      rw [List.filter_eq_nil_iff]
      intro fl hfl
      simp only [beq_iff_eq]
      exact fun hc => h (List.mem_map.mpr ⟨fl, hfl, hc⟩)
    simp [submit_claim, hnil]
  · intro h
    obtain ⟨fl, hfl, hid⟩ := List.mem_map.mp h
    have hne : (s.food_listings.filter (fun x => x.Food_ID == fid)).length ≠ 0 := by
      simp only [ne_eq, List.length_eq_zero, List.filter_eq_nil_iff, not_forall]
      exact ⟨fl, hfl, by simp [hid]⟩
    simp [submit_claim, hne, add_claim_sql]

/-- Witness for claim C6: submitting a claim for the absent Food_ID 1
on the empty store errors with the invalid reference, and submitting it
on a store that lists Food_ID 1 appends exactly the new claim row. -/
theorem C6_witness :
    submit_claim 1 1 "Pending" "ts" emptyStore = Except.error DBError.InvalidReference ∧
    submit_claim 1 1 "Pending" "ts" storeC6b = Except.ok { storeC6b with
      claims := storeC6b.claims ++ [⟨new_claim_id storeC6b, 1, 1, "Pending", "ts"⟩] } :=
  ⟨(C6_submit_claim_validates_food_id emptyStore 1 1 "Pending" "ts").1 (by decide),
   (C6_submit_claim_validates_food_id storeC6b 1 1 "Pending" "ts").2 (by decide)⟩

/-! Claim C7. -/

/-- A store whose claims relation holds exactly one claim, with
Claim_ID 1. -/
def storeC7w : Store := ⟨[], [], [], [⟨1, 1, 1, "Pending", "t"⟩]⟩

/-- Claim C7: the fresh-claim-id computation returns 1 when the claims
relation is empty and the maximum existing Claim_ID plus one otherwise;
in particular after inserting a claim with id 1 into the empty store it
returns 2. -/
theorem C7_new_claim_id_spec :
    (∀ s : Store, s.claims = [] → new_claim_id s = 1) ∧
    (∀ s : Store, s.claims ≠ [] → ∃ m, m ∈ s.claims.map Claim.Claim_ID ∧
      (∀ c ∈ s.claims, c.Claim_ID ≤ m) ∧ new_claim_id s = m + 1) ∧
    (∀ t, add_claim_sql 1 1 1 "Pending" "ts" emptyStore = Except.ok t →
      new_claim_id t = 2) := by
  refine ⟨?_, ?_, ?_⟩
  · intro s h
    simp [new_claim_id, h]
  · intro s h
    have hne : s.claims.map Claim.Claim_ID ≠ [] := by simpa using h
    obtain ⟨m, hm⟩ : ∃ m, (s.claims.map Claim.Claim_ID).max? = some m := by
      cases hmax : (s.claims.map Claim.Claim_ID).max? with
      | none => exact absurd (List.max?_eq_none_iff.mp hmax) hne
      | some m => exact ⟨m, rfl⟩
    refine ⟨m, List.max?_mem (fun a b => max_choice a b) hm, ?_, ?_⟩
    · intro c hc
      exact (List.max?_le_iff (fun _ _ _ => max_le_iff) hm).mp (le_refl m) _
        (List.mem_map.mpr ⟨c, hc, rfl⟩)
    · simp [new_claim_id, hm]
  · intro t ht
    cases ht
    rfl

/-- Witness for claim C7: on the empty store the fresh claim id is 1,
and on the store holding exactly the claim with id 1 it is 2. -/
theorem C7_witness : new_claim_id emptyStore = 1 ∧ new_claim_id storeC7w = 2 := by
  refine ⟨C7_new_claim_id_spec.1 emptyStore rfl, ?_⟩
  obtain ⟨m, hmem, _, heq⟩ := C7_new_claim_id_spec.2.1 storeC7w (by decide)
  have hm : m = 1 := by simpa [storeC7w] using hmem
  rw [heq, hm]

/-! Claim C8. -/

/-- The ordering stated by the claim, with Expiry_Date read as the
calendar date it denotes (the data-model type of the column): expiry
day ascending, ties broken by Food_Name ascending.  This definition
follows the words of the specification and is compared against the
text ordering the code actually sorts by. -/
def specClaimedOrderB (a b : FilteredRow) : Bool :=
  decide (a.Expiry_Date.dateDay < b.Expiry_Date.dateDay) ||
  (decide (a.Expiry_Date.dateDay = b.Expiry_Date.dateDay) &&
    strLeB a.Food_Name b.Food_Name)

/-- Propositional form of the ordering the claim states. -/
def specClaimedOrder (a b : FilteredRow) : Prop :=
  specClaimedOrderB a b = true

instance : DecidableRel specClaimedOrder :=
  fun a b => inferInstanceAs (Decidable (_ = true))

/-- A store with one provider and two listings expiring on the same
calendar day (day 100): a CSV-loaded one named Apple (stored with the
00:00:00 suffix) and a form-added one named Zebra (stored as the bare
date). -/
def storeC8cx : Store :=
  ⟨[⟨1, "P1", "Restaurant", "CityA", "c1"⟩], [],
   [flStamped 100 "Apple" 1, flPlain 100 "Zebra" 2], []⟩

/-- Claim C8 is refuted at this store: both joined rows expire on the
same calendar day, so the claimed ordering (Expiry_Date ascending then
Food_Name ascending) demands Apple before Zebra; but the code sorts by
the stored Expiry_Date text, under which the bare date of Zebra is
strictly below the suffixed text of Apple, so the result is Zebra then
Apple and is not sorted in the claimed order. -/
theorem C8_counterexample :
    ((filter_query none none none none storeC8cx).map
        (fun r => (r.Food_Name, r.Expiry_Date.dateDay)) =
      [("Zebra", 100), ("Apple", 100)]) ∧
    ¬ List.Sorted specClaimedOrder (filter_query none none none none storeC8cx) := by
  constructor
  · decide
  · decide

/-- The Boolean filter conjunction of the Claim Food page is exactly
the and of the supplied equalities, an absent filter matching all
rows. -/
theorem matchesFilters_iff (city ptype ftype mtype : Option String) (row : FilteredRow) :
    matchesFilters city ptype ftype mtype row = true ↔
      ((∀ c, city = some c → row.Location = c) ∧
       (∀ t, ptype = some t → row.Provider_Type = t) ∧
       (∀ t, ftype = some t → row.Food_Type = t) ∧
       (∀ t, mtype = some t → row.Meal_Type = t)) := by
  cases city <;> cases ptype <;> cases ftype <;> cases mtype <;>
    simp [matchesFilters, and_assoc]

/-- Claim C8 (amended): filter_query returns exactly the listings
joined with their provider Name and Contact that satisfy every supplied
filter (an absent filter matches all rows, supplied filters combine
with AND), ordered by the stored Expiry_Date text ascending and then by
Food_Name ascending among rows with identical stored text.  On rows
whose expiry dates are stored in the same format the text order agrees
with the calendar-date order, but a form-added bare date sorts before a
CSV-loaded suffixed text of the same day regardless of the food
names. -/
theorem C8_filter_query_spec (city ptype ftype mtype : Option String) (s : Store) :
    (∀ row, row ∈ filter_query city ptype ftype mtype s ↔
      ∃ fl ∈ s.food_listings, ∃ p ∈ s.providers, p.Provider_ID = fl.Provider_ID ∧
        row = mkFilteredRow fl p ∧
        (∀ c, city = some c → row.Location = c) ∧
        (∀ t, ptype = some t → row.Provider_Type = t) ∧
        (∀ t, ftype = some t → row.Food_Type = t) ∧
        (∀ t, mtype = some t → row.Meal_Type = t)) ∧
    List.Sorted filteredRowLe (filter_query city ptype ftype mtype s) := by
  refine ⟨?_, List.sorted_insertionSort _ _⟩
  intro row
  rw [filter_query, (List.perm_insertionSort _ _).mem_iff, List.mem_filter]
  simp only [List.mem_flatMap, List.mem_map, List.mem_filter,
    matchesFilters_iff, beq_iff_eq]
  constructor
  · rintro ⟨⟨fl, hfl, p, ⟨hp, hpid⟩, rfl⟩, hfilters⟩
    exact ⟨fl, hfl, p, hp, hpid, rfl, hfilters⟩
  · rintro ⟨fl, hfl, p, hp, hpid, rfl, hfilters⟩
    exact ⟨⟨fl, hfl, p, ⟨hp, hpid⟩, rfl⟩, hfilters⟩

/-- Witness for the amended claim C8: the joined Zebra row of the
counterexample store satisfies the membership characterization with no
filters supplied. -/
theorem C8_witness :
    mkFilteredRow (flPlain 100 "Zebra" 2) ⟨1, "P1", "Restaurant", "CityA", "c1"⟩ ∈
      filter_query none none none none storeC8cx :=
  ((C8_filter_query_spec none none none none storeC8cx).1 _).mpr
    ⟨flPlain 100 "Zebra" 2, by decide, ⟨1, "P1", "Restaurant", "CityA", "c1"⟩, by decide,
      rfl, rfl, fun _ h => Option.noConfusion h, fun _ h => Option.noConfusion h,
      fun _ h => Option.noConfusion h, fun _ h => Option.noConfusion h⟩

/-! Claim C9. -/

/-- A store with three claims: two Pending and one Completed. -/
def storeC9 : Store :=
  ⟨[], [], [],
   [⟨1, 1, 1, "Pending", "t"⟩, ⟨2, 1, 1, "Pending", "t"⟩, ⟨3, 1, 1, "Completed", "t"⟩]⟩

/-- Claim C9: on every non-empty claims relation, the
claim-status-percentage query reports, for each distinct status, 100
times its claim count divided by the total claim count with exact
(non-integer) division, the reported percentages sum to exactly 100
(hence within any floating-point tolerance), and rows are ordered by
percentage descending. -/
theorem C9_claim_status_percentages (s : Store) (h : s.claims ≠ []) :
    ((get_claim_status_percentage_sql s).map (fun r => r.2)).sum = 100 ∧
    (∀ st pct, (st, pct) ∈ get_claim_status_percentage_sql s →
      pct = ((s.claims.filter (fun c => c.Status == st)).length : ℚ) * 100
        / (s.claims.length : ℚ)) ∧
    List.Sorted pctRowLe (get_claim_status_percentage_sql s) := by
  have hn0 : s.claims.length ≠ 0 := by simpa [List.length_eq_zero] using h
  have hn : (s.claims.length : ℚ) ≠ 0 := Nat.cast_ne_zero.mpr hn0
  refine ⟨?_, ?_, List.sorted_insertionSort _ _⟩
  · have hperm := ((List.perm_insertionSort pctRowLe
      (((s.claims.map Claim.Status).dedup).map (fun st =>
        (st, ((s.claims.filter (fun c => c.Status == st)).length : ℚ) * 100
          / ((s.claims.length : ℚ)))))).map (fun r => r.2))
    rw [get_claim_status_percentage_sql, hperm.sum_eq, List.map_map]
    have hcongr : (((s.claims.map Claim.Status).dedup).map
        ((fun r : String × ℚ => r.2) ∘ (fun st =>
          (st, ((s.claims.filter (fun c => c.Status == st)).length : ℚ) * 100
            / ((s.claims.length : ℚ)))))) =
        ((s.claims.map Claim.Status).dedup).map (fun st =>
          (((s.claims.map Claim.Status).count st : ℚ)) * (100 / (s.claims.length : ℚ))) := by
      apply List.map_congr_left
      intro st _
      simp only [Function.comp, status_filter_length, mul_div_assoc]
    rw [hcongr]
    have hmul := List.sum_map_mul_right ((s.claims.map Claim.Status).dedup)
      (fun st => (((s.claims.map Claim.Status).count st : ℕ) : ℚ))
      (100 / (s.claims.length : ℚ))
    rw [hmul]
    have hcast : (((s.claims.map Claim.Status).dedup).map
        (fun st => (((s.claims.map Claim.Status).count st : ℕ) : ℚ))).sum =
        ((((s.claims.map Claim.Status).dedup).map
          (fun st => (s.claims.map Claim.Status).count st)).sum : ℚ) := by
      rw [Nat.cast_list_sum, List.map_map]
      rfl
    rw [hcast, sum_dedup_count, List.length_map]
    field_simp
  · intro st pct hmem
    have h2 := ((List.perm_insertionSort pctRowLe _).mem_iff).mp hmem
    simp only [List.mem_map, Prod.mk.injEq] at h2
    obtain ⟨st2, _, rfl, hpct⟩ := h2
    exact hpct.symm

/-- Witness for claim C9: on the store with statuses Pending, Pending,
Completed the reported percentages sum to exactly 100. -/
theorem C9_witness :
    ((get_claim_status_percentage_sql storeC9).map (fun r => r.2)).sum = 100 :=
  (C9_claim_status_percentages storeC9 (by decide)).1

/-! Claim C10. -/

/-- A store with two listings of quantity 1 each. -/
def storeC10 : Store := ⟨[], [], [flPlain 200 "Bread" 1, flPlain 201 "Rice" 2], []⟩

/-- Claim C10: the total-food-available query returns the SQL NULL
(none) when food_listings is empty, because SUM over zero rows is NULL
and not 0, and returns the numeric sum of the quantities as soon as at
least one listing exists. -/
theorem C10_total_food_available_null_iff_empty (s : Store) :
    (s.food_listings = [] → get_total_food_available_sql s = none) ∧
    (s.food_listings ≠ [] → get_total_food_available_sql s =
      some ((s.food_listings.map FoodListing.Quantity).sum)) := by
  constructor
  · intro h
    simp [get_total_food_available_sql, h]
  · intro h
    cases hl : s.food_listings with
    | nil => exact absurd hl h
    | cons a t => simp [get_total_food_available_sql, hl]

/-- Witness for claim C10: the empty store yields the NULL total, and
the store with two quantity-1 listings yields the number 2. -/
theorem C10_witness :
    get_total_food_available_sql emptyStore = none ∧
    get_total_food_available_sql storeC10 = some 2 := by
  refine ⟨(C10_total_food_available_null_iff_empty emptyStore).1 rfl, ?_⟩
  have h := (C10_total_food_available_null_iff_empty storeC10).2 (by decide)
  simpa using h

end FoodApp
